import Mathlib

/-!
# Verification of the hamza-socket-lib TCP reactor

Shallow embedding of the epoll-based TCP server library
(`src/src/epoll_server.cpp`, `src/includes/port.hpp`,
`src/src/connection.cpp`, `src/src/socket_address.cpp`,
`src/src/utilities.cpp`) together with proofs about the embedded
definitions.  Machine integers are modelled as `Nat`/`Int` with the
implicit C++ conversions made explicit (`% 2^64` where a signed value is
stored into `std::size_t`).
-/

/-! ## Platform constants

Values of the epoll event bits from Linux `<sys/epoll.h>` (the library is
Linux-only: `epoll_server.cpp` guards everything with `__linux__`).
-/

/-- Value of the `EPOLLIN` readiness bit (Linux `<sys/epoll.h>`). -/
def EPOLLIN : Nat := 0x001

/-- Value of the `EPOLLOUT` readiness bit (Linux `<sys/epoll.h>`). -/
def EPOLLOUT : Nat := 0x004

/-- Value of the `EPOLLERR` readiness bit (Linux `<sys/epoll.h>`). -/
def EPOLLERR : Nat := 0x008

/-- Value of the `EPOLLHUP` readiness bit (Linux `<sys/epoll.h>`). -/
def EPOLLHUP : Nat := 0x010

/-- Value of the `EPOLLRDHUP` readiness bit (Linux `<sys/epoll.h>`). -/
def EPOLLRDHUP : Nat := 0x2000

/-- Value of the `EPOLLET` edge-trigger flag (Linux `<sys/epoll.h>`, bit 31). -/
def EPOLLET : Nat := 2 ^ 31

/-- The sentinel close event mask, from `src/includes/epoll_server.hpp`
line 34: `const u_int32_t HAMZA_CUSTOM_CLOSE_EVENT = 3545940;`. -/
def HAMZA_CUSTOM_CLOSE_EVENT : Nat := 3545940

/-! ## Port validation (`src/includes/port.hpp`, `src/unnamed/part_013`)

`src/unnamed/part_013` (the utilities header) defines
`const int MIN_PORT = 1024;` and `const int MAX_PORT = 65535;`.
`port::set_port_id` (`src/includes/port.hpp` lines 30-37) throws a
`socket_exception` with type string `"InvalidPort"` when
`id < MIN_PORT || id > MAX_PORT`, and stores the id otherwise.
-/

/-- Constant `MIN_PORT` from `src/unnamed/part_013` line 51. -/
def MIN_PORT : Int := 1024

/-- Constant `MAX_PORT` from `src/unnamed/part_013` line 52. -/
def MAX_PORT : Int := 65535

/-- Embedding of `port::set_port_id` / the validating constructor
`port::port(int)`: returns the stored port id, or the exception type
string thrown. -/
def set_port_id (id : Int) : Except String Int :=
  if id < MIN_PORT ∨ id > MAX_PORT then .error "InvalidPort" else .ok id

/-- Whether constructing `port(id)` succeeds (no exception thrown). -/
def port_construction_ok (id : Int) : Bool :=
  match set_port_id id with
  | .ok _ => true
  | .error _ => false

/-! ## Connection teardown trace
(`epoll_server::close_conn`, `src/src/epoll_server.cpp` lines 226-233,
and `connection::close` / `connection::~connection`,
`src/src/connection.cpp` lines 86-104)

We record the externally observable steps of tearing one connection down
as a trace of events.  The descriptor in question is fixed, so events
carry no fd.
-/

/-- Observable teardown steps for one connection's descriptor. -/
inductive TeardownEvent where
  /-- step `del_epoll(fd)` — removal from the epoll multiplexer. -/
  | delEpoll : TeardownEvent
  /-- the `on_connection_closed` callback returning. -/
  | onClosed : TeardownEvent
  /-- step `close_socket(fd)` — an OS `close` of the descriptor. -/
  | closeSocket : TeardownEvent
  /-- step `conns.erase(fd)` — removal from the connection table. -/
  | eraseTable : TeardownEvent
deriving DecidableEq, Repr

/-- Embedding of the body of `epoll_server::close_conn`
(`src/src/epoll_server.cpp` lines 226-233): after decrementing the open
count it performs, in source order, `del_epoll(fd)`,
`on_connection_closed(conns[fd].conn)`, `close_socket(fd)`,
`conns.erase(fd)`. -/
def close_conn_trace : List TeardownEvent :=
  [.delEpoll, .onClosed, .closeSocket, .eraseTable]

/-- State of a `connection` object relevant to closing:
its `is_open` flag (`src/src/connection.cpp`). -/
structure ConnectionState where
  is_open : Bool
deriving DecidableEq, Repr

/-- Embedding of `connection::close` (`src/src/connection.cpp` lines
86-94): if `is_open` it clears the flag, closes the socket and
invalidates the descriptor; otherwise nothing happens.  Returns the new
state and the emitted events. -/
def connection_close (c : ConnectionState) :
    ConnectionState × List TeardownEvent :=
  if c.is_open then (⟨false⟩, [.closeSocket]) else (c, [])

/-- Embedding of `connection::~connection` (`src/src/connection.cpp`
lines 101-104): the destructor just calls `close()`. -/
def connection_destructor (c : ConnectionState) : List TeardownEvent :=
  (connection_close c).2

/-- The whole-lifetime teardown trace of a connection torn down by the
reactor's `close_conn`, for a connection object in state `c`.
`close_conn` calls the free function `close_socket(fd)` directly and
never touches the connection object's `is_open` flag, so when
`conns.erase(fd)` drops the last `shared_ptr` reference
(`lastRef = true`) the `connection` destructor runs on the unchanged
state `c`. -/
def reactor_teardown_trace (c : ConnectionState) (lastRef : Bool) :
    List TeardownEvent :=
  close_conn_trace ++ (if lastRef then connection_destructor c else [])

/-- Number of OS closes of the descriptor in a trace. -/
def close_count (t : List TeardownEvent) : Nat :=
  t.count .closeSocket

/-! ## Event batch sizing (`epoll_server::epoll_loop`,
`src/src/epoll_server.cpp` lines 317-332 and constructor line 598)

The constructor runs `events = std::vector<epoll_event>(4096);`.
Each loop iteration obtains `n` from `epoll_wait` and, when
`n == (int)events.size()`, runs `events.resize(events.size() * 2)`;
the event-processing `for` loop over `i in [0, n)` runs afterwards
regardless.
-/

/-- Initial capacity of the event batch
(`events = std::vector<epoll_event>(4096)`). -/
def initial_event_capacity : Nat := 4096

/-- Capacity after one loop iteration that received `n` events with
current capacity `cap` (`src/src/epoll_server.cpp` lines 327-332). -/
def resize_step (cap n : Nat) : Nat :=
  if n = cap then cap * 2 else cap

/-- Capacity after a sequence of loop iterations whose `epoll_wait`
results are `ns`, starting from the constructor's 4096. -/
def capacity_after (ns : List Nat) : Nat :=
  ns.foldl resize_step initial_event_capacity

/-- Behavior of `std::vector::resize` to a larger size keeps the existing elements:
the saturated batch after doubling, with the fresh (value-initialized)
tail made explicit. -/
def resize_grow {α : Type} (l : List α) (pad : α) : List α :=
  l ++ List.replicate l.length pad

/-! ## Write flush (`epoll_server::flush_writes`,
`src/src/epoll_server.cpp` lines 250-283)

The source stores the return value of `::send` (a signed `ssize_t`) into
`std::size_t n`, so a `-1` error return becomes `2^64 - 1`.  The loop
is:

* pop empty head chunks;
* `n = ::send(fd, front.data(), front.size(), 0)` (as `std::size_t`);
* `if (n > 0) { front.erase(0, n); continue; }`
* `if (n == -1 && (errno == EAGAIN || errno == EWOULDBLOCK)) return false;`
* `return false;`
* return `true` when the queue is empty.

We model one `::send` outcome as its signed return value together with
whether `errno` was `EAGAIN`/`EWOULDBLOCK`, and drive the loop by a list
of such outcomes (one consumed per `::send` call).
-/

/-- The C++ conversion of a signed 64-bit value stored into
`std::size_t`: reduction modulo `2^64`. -/
def to_size_t (r : Int) : Nat := (r % (2 ^ 64 : Int)).toNat

/-- One outcome of a `::send` (or `::recv`) call: the `ssize_t` return
value and whether `errno` was `EAGAIN` or `EWOULDBLOCK` afterwards. -/
structure SyscallResult where
  ret : Int
  eagain : Bool
deriving DecidableEq, Repr

/-- Embedding of `epoll_server::flush_writes`
(`src/src/epoll_server.cpp` lines 250-283) on the output queue, driven
by the list of `::send` outcomes.  Chunks are byte lists;
`front.erase(0, n)` is `List.drop n`.  Returns the function's boolean
result and the final queue.  (The `sends = []` guard is a modelling
artifact for an exhausted outcome list; every theorem below supplies
enough outcomes.) -/
def flush_writes : List (List Nat) → List SyscallResult → Bool × List (List Nat)
  | [], _ => (true, [])
  | [] :: rest, sends => flush_writes rest sends
  | front :: rest, [] => (false, front :: rest)
  | front :: rest, s :: sends =>
      let n := to_size_t s.ret
      if 0 < n then
        flush_writes (front.drop n :: rest) sends
      else if n = to_size_t (-1) ∧ s.eagain then
        (false, front :: rest)
      else
        (false, front :: rest)
termination_by outq sends => (sends.length, outq.length)

/-! ## Read drain (`epoll_server::try_read`,
`src/src/epoll_server.cpp` lines 127-163)

The source stores the return value of `::recv` into
`std::size_t m` (line 137), then branches:

* `if (m > 0)` — `on_message_received(c.conn, data_buffer(buf, m))`;
* `else if (m == 0)` — `close_conn(fd); return;`
* `else` — `if (errno == EAGAIN || errno == EWOULDBLOCK) break;`
  otherwise `close_conn(fd); return;`.

We model the branch the loop takes for one `::recv` outcome.
-/

/-- The action `try_read` takes for one `::recv` outcome. -/
inductive ReadAction where
  /-- the `m > 0` branch: construct `data_buffer(buf, m)` and call
  `on_message_received` with it. -/
  | deliver (m : Nat) : ReadAction
  /-- the `m == 0` branch: peer closed, `close_conn` and return. -/
  | closePeer : ReadAction
  /-- the `EAGAIN`/`EWOULDBLOCK` branch: socket drained, break out. -/
  | drainReturn : ReadAction
  /-- the other-error branch: `close_conn` and return. -/
  | closeError : ReadAction
deriving DecidableEq, Repr

/-- Embedding of one iteration of the `try_read` drain loop
(`src/src/epoll_server.cpp` lines 135-157): the branch selected for a
`::recv` outcome, with the `std::size_t` conversion of the return value
made explicit. -/
def try_read_step (r : SyscallResult) : ReadAction :=
  let m := to_size_t r.ret
  if 0 < m then .deliver m
  else if m = 0 then .closePeer
  else if r.eagain then .drainReturn
  else .closeError

/-! ## Reactor state (`src/unnamed/part_008` struct `epoll_connection`,
`src/src/epoll_server.cpp`)

The connection table `std::unordered_map<int, epoll_connection> conns`
and the kernel-side epoll registrations are modelled as partial maps
from descriptor to entry.  Embedder callbacks
(`on_connection_opened`, `on_message_received`, …) are treated as
opaque: their own calls back into the reactor are separate operations.
-/

/-- Per-connection reactor state, from `struct epoll_connection`
(`src/unnamed/part_008` lines 60-73): pending output queue,
`want_write`, `want_close`.  The `shared_ptr<connection>` member is
irrelevant to the claims and omitted. -/
structure EpollConnection where
  outq : List (List Nat)
  want_write : Bool
  want_close : Bool
deriving DecidableEq, Repr

/-- Reactor state: the connection table `conns` and, for each
descriptor, the event mask currently registered with the epoll
instance (`none` = not registered). -/
structure ServerState where
  conns : Nat → Option EpollConnection
  masks : Nat → Option Nat

/-- Embedding of `epoll_server::mod_epoll`
(`src/src/epoll_server.cpp` lines 198-205): `EPOLL_CTL_MOD` replaces
the registered mask of `fd`; for an unregistered `fd` it fails with
`ENOENT` (the call's return value is ignored by every caller), leaving
the state unchanged. -/
def mod_epoll (fd ev : Nat) (st : ServerState) : ServerState :=
  { st with masks := fun k => if k = fd then (st.masks fd).map fun _ => ev else st.masks k }

/-- Replace the connection-table entry of `fd` (if present) by `f` of
it; models in-place mutation through `conns[fd]` / `it->second`. -/
def update_conn (fd : Nat) (f : EpollConnection → EpollConnection) (st : ServerState) :
    ServerState :=
  { st with conns := fun k => if k = fd then (st.conns fd).map f else st.conns k }

/-- Embedding of the state effect of `epoll_server::close_conn`
(`src/src/epoll_server.cpp` lines 226-233): `del_epoll(fd)` removes the
registration and `conns.erase(fd)` removes the table entry.  (The
event-level story of the same function is `close_conn_trace`.) -/
def close_conn (fd : Nat) (st : ServerState) : ServerState :=
  { conns := fun k => if k = fd then none else st.conns k,
    masks := fun k => if k = fd then none else st.masks k }

/-- Embedding of `epoll_server::send_message`
(`src/src/epoll_server.cpp` lines 485-498): look the descriptor up in
`conns`; if absent, return; otherwise append the message to the entry's
output queue and `mod_epoll(fd, EPOLLOUT)`. -/
def send_message (fd : Nat) (msg : List Nat) (st : ServerState) : ServerState :=
  match st.conns fd with
  | none => st
  | some _ =>
      mod_epoll fd EPOLLOUT
        (update_conn fd (fun c => { c with outq := c.outq ++ [msg] }) st)

/-- Embedding of `epoll_server::close_connection`
(`src/src/epoll_server.cpp` lines 439-447 and 458-465): if the
descriptor is present, set `want_close` and rearm with the sentinel
mask. -/
def close_connection (fd : Nat) (st : ServerState) : ServerState :=
  match st.conns fd with
  | none => st
  | some _ =>
      mod_epoll fd HAMZA_CUSTOM_CLOSE_EVENT
        (update_conn fd (fun c => { c with want_close := true }) st)

/-- Embedding of one successful accept iteration of
`epoll_server::try_accept` (`src/src/epoll_server.cpp` lines 103-117):
`add_epoll(cfd, EPOLLIN | EPOLLET)` (`EPOLL_CTL_ADD`, which fails with
`EEXIST` for an already-registered descriptor, in which case the
exception path skips the insertion), then
`conns.emplace(cfd, epoll_connection{connptr, {}, false})` (no
overwrite of an existing key; `want_close` takes its default
`false`). -/
def try_accept_one (fd : Nat) (st : ServerState) : ServerState :=
  if (st.masks fd).isSome then st
  else
    { conns := fun k =>
        if k = fd then
          match st.conns fd with
          | some c => some c
          | none => some { outq := [], want_write := false, want_close := false }
        else st.conns k,
      masks := fun k => if k = fd then some (EPOLLIN ||| EPOLLET) else st.masks k }

/-- Embedding of the write-scheduling block of `epoll_server::epoll_loop`
(`src/src/epoll_server.cpp` lines 354-376): if the entry's `outq` is
non-empty, flush; on success, if `want_write` was set, clear it and
rearm `EPOLLIN | EPOLLET`; on failure, if `want_write` was clear, set it
and rearm `EPOLLIN | EPOLLOUT | EPOLLET`. -/
def dispatch_pre_flush (fd : Nat) (sends : List SyscallResult) (st : ServerState) :
    ServerState :=
  match st.conns fd with
  | none => st
  | some c =>
      if c.outq = [] then st
      else
        let r := flush_writes c.outq sends
        let st1 := update_conn fd (fun x => { x with outq := r.2 }) st
        if r.1 then
          if c.want_write then
            mod_epoll fd (EPOLLIN ||| EPOLLET)
              (update_conn fd (fun x => { x with want_write := false }) st1)
          else st1
        else
          if c.want_write then st1
          else
            mod_epoll fd (EPOLLIN ||| EPOLLOUT ||| EPOLLET)
              (update_conn fd (fun x => { x with want_write := true }) st1)

/-- Embedding of the `EPOLLOUT` block of `epoll_server::epoll_loop`
(`src/src/epoll_server.cpp` lines 379-388): if the event has
`EPOLLOUT`, flush; on success clear `want_write` and rearm
`EPOLLIN | EPOLLET`; on failure keep everything. -/
def dispatch_epollout (fd ev : Nat) (sends : List SyscallResult) (st : ServerState) :
    ServerState :=
  if ev &&& EPOLLOUT ≠ 0 then
    match st.conns fd with
    | none => st
    | some c =>
        let r := flush_writes c.outq sends
        let st1 := update_conn fd (fun x => { x with outq := r.2 }) st
        if r.1 then
          mod_epoll fd (EPOLLIN ||| EPOLLET)
            (update_conn fd (fun x => { x with want_write := false }) st1)
        else st1
  else st

/-- Embedding of the error/hangup and sentinel blocks of
`epoll_server::epoll_loop` (`src/src/epoll_server.cpp` lines 391-404):
close the connection only when `want_write` is clear. -/
def dispatch_close_check (fd : Nat) (st : ServerState) : ServerState :=
  match st.conns fd with
  | none => st
  | some c => if c.want_write then st else close_conn fd st

/-- State effect of the `try_read` drain loop
(`src/src/epoll_server.cpp` lines 135-157) over a list of `::recv`
outcomes: deliveries leave the reactor state unchanged (callbacks
opaque), `m == 0` and the other-error branch run `close_conn` and
return, `EAGAIN` returns. -/
def try_read_loop (fd : Nat) : List SyscallResult → ServerState → ServerState
  | [], st => st
  | r :: rs, st =>
      match try_read_step r with
      | .deliver _ => try_read_loop fd rs st
      | .closePeer => close_conn fd st
      | .drainReturn => st
      | .closeError => close_conn fd st

/-- Embedding of `epoll_server::try_read` (`src/src/epoll_server.cpp`
lines 127-163): the drain loop guarded by `!c.want_close` (callbacks
being opaque in this model, the flag is constant throughout the
loop). -/
def try_read (fd : Nat) (recvs : List SyscallResult) (st : ServerState) : ServerState :=
  match st.conns fd with
  | none => st
  | some c => if c.want_close then st else try_read_loop fd recvs st

/-- Embedding of the per-event dispatch of `epoll_server::epoll_loop`
(`src/src/epoll_server.cpp` lines 347-410) for a non-listener event
`(ev, fd)`: skip unknown descriptors; run the write-scheduling block,
then the `EPOLLOUT` block; then the error/hangup check, the sentinel
check and the `EPOLLIN` read drain (each of the first two `continue`s
past the rest).  `sends1`, `sends2` and `recvs` supply the syscall
outcomes of the two possible flushes and of the read drain. -/
def dispatch_event (fd ev : Nat) (sends1 sends2 recvs : List SyscallResult)
    (st : ServerState) : ServerState :=
  match st.conns fd with
  | none => st
  | some _ =>
      let st1 := dispatch_pre_flush fd sends1 st
      let st2 := dispatch_epollout fd ev sends2 st1
      if ev &&& (EPOLLERR ||| EPOLLHUP) ≠ 0 then dispatch_close_check fd st2
      else if ev &&& HAMZA_CUSTOM_CLOSE_EVENT ≠ 0 then dispatch_close_check fd st2
      else if ev &&& EPOLLIN ≠ 0 then try_read fd recvs st2
      else st2

/-- The claimed invariant: every connection in the table whose
`want_write` flag is clear has a registered event mask without the
`EPOLLOUT` bit. -/
def mask_invariant (st : ServerState) : Prop :=
  ∀ fd c, st.conns fd = some c → c.want_write = false →
    ∀ m, st.masks fd = some m → m &&& EPOLLOUT = 0

/-! ## Kernel address structures (`src/src/socket_address.cpp`,
`src/src/utilities.cpp`)

Byte-level model (x86-64 Linux layout) of `sockaddr_in` /
`sockaddr_in6`.  `sa_family_t` is stored in host byte order (little
endian); ports are stored in network byte order (`htons`, big endian).
A textual IP address is represented here by its binary value
(`inet_pton` image): `inet_pton` and `inet_ntop` are mutually inverse
between canonical text and binary, so "same textual address" is "same
byte value".
-/

/-- Value of `AF_INET` (Linux). `src/unnamed/part_013` defines `IPV4 = AF_INET`. -/
def AF_INET : Nat := 2

/-- Value of `AF_INET6` (Linux). `src/unnamed/part_013` defines `IPV6 = AF_INET6`. -/
def AF_INET6 : Nat := 10

/-- A 16-bit value stored little-endian (host order on x86-64). -/
def u16le (v : Nat) : List Nat := [v % 256, v / 256 % 256]

/-- A 16-bit value stored big-endian (network order, `htons`). -/
def u16be (v : Nat) : List Nat := [v / 256 % 256, v % 256]

/-- Byte image of the `sockaddr_in` built by `handle_ipv4`
(`src/src/socket_address.cpp` lines 100-108): `sin_family` (u16, host
order), `sin_port` (`htons`), `sin_addr` (4 bytes,
`inet_pton(family_id.get(), …)`), `sin_zero` (8 bytes).  For an IPv6
family the `inet_pton` write of 16 bytes into the 4-byte `sin_addr`
overflows the structure; only the in-bounds prefix is modelled.  Either
way the component constructor immediately overwrites this structure
(line 15). -/
def handle_ipv4_bytes (fam : Nat) (ip : List Nat) (portv : Nat) : List Nat :=
  u16le fam ++ u16be portv ++ ip.take 4 ++ List.replicate 8 0

/-- Byte image of the `sockaddr_in6` built by `handle_ipv6`
(`src/src/socket_address.cpp` lines 111-119): `sin6_family` (u16, host
order: `family_id.get()`, i.e. 2 for an IPv4 endpoint), `sin6_port`
(`htons`), `sin6_flowinfo` (4 bytes, zero from value initialization),
`sin6_addr` (16 bytes: `inet_pton(family_id.get(), …)` writes 4 bytes
for `AF_INET` and 16 for `AF_INET6`, the rest staying zero),
`sin6_scope_id` (4 bytes, zero). -/
def handle_ipv6_bytes (fam : Nat) (ip : List Nat) (portv : Nat) : List Nat :=
  u16le fam ++ u16be portv ++ [0, 0, 0, 0] ++
    (if fam = AF_INET then ip.take 4 ++ List.replicate 12 0 else ip.take 16) ++
    [0, 0, 0, 0]

/-- Embedding of the component constructor
`socket_address::socket_address(const port&, const ip_address&, const family&)`
(`src/src/socket_address.cpp` lines 11-16): it calls `handle_ipv4`
and then, unconditionally, `handle_ipv6`; each stores its structure
into `this->addr`, so the materialized kernel address is
`handle_ipv6`'s `sockaddr_in6`, whatever the family. -/
def socket_address_encode (fam : Nat) (ip : List Nat) (portv : Nat) : List Nat :=
  handle_ipv6_bytes fam ip portv

/-- The endpoint triple recovered by the decoding constructor. -/
structure DecodedAddress where
  family_id : Nat
  address : List Nat
  port_id : Int
deriving DecidableEq, Repr

/-- Read a u16 stored little-endian at `off`. -/
def read_u16le (b : List Nat) (off : Nat) : Nat :=
  b.getD off 0 + 256 * b.getD (off + 1) 0

/-- Read a u16 stored big-endian at `off` (`ntohs`). -/
def read_u16be (b : List Nat) (off : Nat) : Nat :=
  256 * b.getD off 0 + b.getD (off + 1) 0

/-- Embedding of the decoding constructor
`socket_address::socket_address(sockaddr_storage&)`
(`src/src/socket_address.cpp` lines 19-47) on the byte image: dispatch
on `ss_family` (u16 at offset 0).  `AF_INET`: address from `sin_addr`
(4 bytes at offset 4, via `get_ip_address_from_network_address`,
`src/src/utilities.cpp` lines 200-228), port from `ntohs(sin_port)`
(offset 2).  `AF_INET6`: address from `sin6_addr` (16 bytes at offset
8), port from `ntohs(sin6_port)` (offset 2).  The recovered port goes
through the validating `port` constructor
(`src/includes/port.hpp`), whose exception propagates (`none`).  Any
other family leaves the fields default-initialized (`none` here). -/
def socket_address_decode (b : List Nat) : Option DecodedAddress :=
  let fam := read_u16le b 0
  if fam = AF_INET then
    match set_port_id (read_u16be b 2) with
    | .ok p => some ⟨AF_INET, (b.drop 4).take 4, p⟩
    | .error _ => none
  else if fam = AF_INET6 then
    match set_port_id (read_u16be b 2) with
    | .ok p => some ⟨AF_INET6, (b.drop 8).take 16, p⟩
    | .error _ => none
  else none

/-! ## Helper lemmas for the `want_write`/mask invariant -/

/-- Updating one table entry without clearing its `want_write` flag
keeps the invariant. -/
theorem mask_invariant_update (st : ServerState) (fd : Nat)
    (f : EpollConnection → EpollConnection)
    (hf : ∀ c, (f c).want_write = c.want_write ∨ (f c).want_write = true)
    (h : mask_invariant st) :
    mask_invariant (update_conn fd f st) := by
  intro k c hc hw m hm
  by_cases hk : k = fd
  · subst hk
    simp only [update_conn, if_pos rfl] at hc
    rcases hx : st.conns k with _ | c0 <;> rw [hx] at hc <;> simp at hc
    subst hc
    rcases hf c0 with hf' | hf'
    · exact h k c0 hx (hf' ▸ hw) m hm
    · rw [hf'] at hw; cases hw
  · simp only [update_conn, if_neg hk] at hc
    exact h k c hc hw m hm

/-- Rearming a descriptor with a mask that has no `EPOLLOUT` bit keeps
the invariant, whatever else happened to that descriptor's entry. -/
theorem mask_invariant_rearm_safe (st : ServerState) (fd ev : Nat)
    (f : EpollConnection → EpollConnection) (hev : ev &&& EPOLLOUT = 0)
    (h : mask_invariant st) :
    mask_invariant (mod_epoll fd ev (update_conn fd f st)) := by
  intro k c hc hw m hm
  by_cases hk : k = fd
  · subst hk
    simp only [mod_epoll, update_conn, if_pos rfl] at hm
    rcases hx : st.masks k with _ | m0 <;> rw [hx] at hm <;> simp at hm
    subst hm; exact hev
  · simp only [mod_epoll, update_conn, if_neg hk] at hc hm
    exact h k c hc hw m hm

/-- Setting `want_write` and rearming (with any mask) keeps the
invariant: the obligation for that descriptor becomes vacuous. -/
theorem mask_invariant_arm_write (st : ServerState) (fd ev : Nat)
    (h : mask_invariant st) :
    mask_invariant
      (mod_epoll fd ev (update_conn fd (fun x => { x with want_write := true }) st)) := by
  intro k c hc hw m hm
  by_cases hk : k = fd
  · subst hk
    simp only [mod_epoll, update_conn, if_pos rfl] at hc
    rcases hx : st.conns k with _ | c0 <;> rw [hx] at hc <;> simp at hc
    rw [← hc] at hw; cases hw
  · simp only [mod_epoll, update_conn, if_neg hk] at hc hm
    exact h k c hc hw m hm

/-- Removing a descriptor from both maps keeps the invariant. -/
theorem mask_invariant_close_conn (st : ServerState) (fd : Nat)
    (h : mask_invariant st) :
    mask_invariant (close_conn fd st) := by
  intro k c hc hw m hm
  by_cases hk : k = fd
  · subst hk; simp [close_conn] at hc
  · simp only [close_conn, if_neg hk] at hc hm
    exact h k c hc hw m hm

/-- The mask `EPOLLIN ||| EPOLLET` has no `EPOLLOUT` bit. -/
theorem epollin_et_no_out : (EPOLLIN ||| EPOLLET) &&& EPOLLOUT = 0 := by decide

/-- The write-scheduling block keeps the invariant. -/
theorem mask_invariant_pre_flush (st : ServerState) (fd : Nat)
    (sends : List SyscallResult) (h : mask_invariant st) :
    mask_invariant (dispatch_pre_flush fd sends st) := by
  unfold dispatch_pre_flush
  rcases hx : st.conns fd with _ | c
  · exact h
  · have hupd : mask_invariant
        (update_conn fd (fun x => { x with outq := (flush_writes c.outq sends).2 }) st) :=
      mask_invariant_update st fd _ (fun c => Or.inl rfl) h
    by_cases hq : c.outq = []
    · simpa [hq] using h
    · simp only [hq, if_neg (by simp [hq] : ¬ c.outq = [])]
      by_cases hr : (flush_writes c.outq sends).1
      · by_cases hww : c.want_write
        · simp only [hr, hww, if_pos rfl, if_true]
          exact mask_invariant_rearm_safe _ fd _ _ epollin_et_no_out hupd
        · simpa [hr, hww] using hupd
      · by_cases hww : c.want_write
        · simpa [hr, hww] using hupd
        · simp only [hr, hww]
          simpa using mask_invariant_arm_write _ fd (EPOLLIN ||| EPOLLOUT ||| EPOLLET) hupd

/-- The `EPOLLOUT` block keeps the invariant. -/
theorem mask_invariant_epollout (st : ServerState) (fd ev : Nat)
    (sends : List SyscallResult) (h : mask_invariant st) :
    mask_invariant (dispatch_epollout fd ev sends st) := by
  unfold dispatch_epollout
  split
  · split
    · exact h
    · rename_i c _
      have hupd : mask_invariant
          (update_conn fd (fun x => { x with outq := (flush_writes c.outq sends).2 }) st) :=
        mask_invariant_update st fd _ (fun c => Or.inl rfl) h
      dsimp only
      split
      · exact mask_invariant_rearm_safe _ fd _ _ epollin_et_no_out hupd
      · exact hupd
  · exact h

/-- The error/hangup and sentinel close checks keep the invariant. -/
theorem mask_invariant_close_check (st : ServerState) (fd : Nat)
    (h : mask_invariant st) :
    mask_invariant (dispatch_close_check fd st) := by
  unfold dispatch_close_check
  rcases hx : st.conns fd with _ | c
  · exact h
  · by_cases hww : c.want_write
    · simpa [hww] using h
    · simpa [hww] using mask_invariant_close_conn st fd h

/-- The read drain keeps the invariant. -/
theorem mask_invariant_try_read (st : ServerState) (fd : Nat)
    (recvs : List SyscallResult) (h : mask_invariant st) :
    mask_invariant (try_read fd recvs st) := by
  have hloop : ∀ (rs : List SyscallResult) (s : ServerState), mask_invariant s →
      mask_invariant (try_read_loop fd rs s) := by
    intro rs
    induction rs with
    | nil => intro s hs; simpa [try_read_loop] using hs
    | cons r rs ih =>
        intro s hs
        simp only [try_read_loop]
        cases try_read_step r with
        | deliver m => exact ih s hs
        | closePeer => exact mask_invariant_close_conn s fd hs
        | drainReturn => exact hs
        | closeError => exact mask_invariant_close_conn s fd hs
  unfold try_read
  split
  · exact h
  · split
    · exact h
    · exact hloop recvs st h

/-! ## Claim theorems -/

/-- C1 (code_bug): in `try_read` the `::recv` return value is stored
into `std::size_t m`, so the claimed errno handling is dead code: a
`-1` return becomes `2^64 - 1`, the `m > 0` branch fires and the code
attempts to deliver a `data_buffer` of `2^64 - 1` bytes, whether
`errno` is `EAGAIN`/`EWOULDBLOCK` or anything else.  The
"drained, return" and "schedule close" branches are unreachable for
every possible `::recv` outcome. -/
theorem try_read_error_branches_unreachable :
    (∀ r : SyscallResult,
      try_read_step r ≠ .drainReturn ∧ try_read_step r ≠ .closeError) ∧
    try_read_step ⟨-1, true⟩ = .deliver (2 ^ 64 - 1) ∧
    try_read_step ⟨-1, false⟩ = .deliver (2 ^ 64 - 1) := by
  refine ⟨fun r => ?_, by decide, by decide⟩
  by_cases h : 0 < to_size_t r.ret
  · simp [try_read_step, h]
  · have h0 : to_size_t r.ret = 0 := by omega
    simp [try_read_step, h0]

/-- C2 (code_bug): in `flush_writes` the `::send` return value is
stored into `std::size_t n`, so a `-1` error return becomes `2^64 - 1`,
takes the `n > 0` branch, and `front.erase(0, n)` discards the entire
untransmitted head chunk; the loop then pops it and returns `true` on
the emptied queue.  This holds whether `errno` is
`EAGAIN`/`EWOULDBLOCK` or any other error, and a partial write followed
by such an error likewise ends with `(true, [])` instead of the claimed
`false` with the untransmitted bytes still queued. -/
theorem flush_writes_discards_bytes_on_error :
    flush_writes [[1, 2, 3]] [⟨-1, true⟩] = (true, []) ∧
    flush_writes [[1, 2, 3]] [⟨-1, false⟩] = (true, []) ∧
    flush_writes [[1, 2, 3]] [⟨1, false⟩, ⟨-1, true⟩] = (true, []) := by
  refine ⟨?_, ?_, ?_⟩ <;> simp [flush_writes, to_size_t]

/-- C3 (counterexample): the claim says constructing port 1 succeeds,
but `set_port_id` compares against `MIN_PORT = 1024`
(`src/unnamed/part_013`), so `port(1)` throws `InvalidPort`. -/
theorem port_one_rejected :
    set_port_id 1 = .error "InvalidPort" ∧ port_construction_ok 1 = false := by
  constructor
  · norm_num [set_port_id, MIN_PORT, MAX_PORT]
  · norm_num [port_construction_ok, set_port_id, MIN_PORT, MAX_PORT]

/-- C3 (amended): port construction succeeds exactly for integers in
[1024, 65535] and fails with `InvalidPort` outside; in particular 0, 1
and 65536 are rejected while 1024 and 65535 are accepted. -/
theorem port_range_is_1024_to_65535 :
    (∀ id : Int, port_construction_ok id = true ↔ MIN_PORT ≤ id ∧ id ≤ MAX_PORT) ∧
    set_port_id 0 = .error "InvalidPort" ∧
    set_port_id 65536 = .error "InvalidPort" ∧
    set_port_id 1024 = .ok 1024 ∧
    set_port_id 65535 = .ok 65535 := by
  refine ⟨fun id => ?_,
    by norm_num [set_port_id, MIN_PORT, MAX_PORT],
    by norm_num [set_port_id, MIN_PORT, MAX_PORT],
    by norm_num [set_port_id, MIN_PORT, MAX_PORT],
    by norm_num [set_port_id, MIN_PORT, MAX_PORT]⟩
  by_cases h : id < MIN_PORT ∨ id > MAX_PORT
  · have hpc : port_construction_ok id = false := by
      simp [port_construction_ok, set_port_id, h]
    simp only [hpc, Bool.false_eq_true, false_iff, MIN_PORT, MAX_PORT]
    simp only [MIN_PORT, MAX_PORT] at h
    omega
  · have hpc : port_construction_ok id = true := by
      simp [port_construction_ok, set_port_id, h]
    simp only [hpc, true_iff, MIN_PORT, MAX_PORT]
    simp only [MIN_PORT, MAX_PORT] at h
    omega

/-- A one-connection state: descriptor 5 registered with
`EPOLLIN | EPOLLET`, empty output queue, `want_write` clear. -/
def c4_state : ServerState :=
  { conns := fun k =>
      if k = 5 then some { outq := [], want_write := false, want_close := false }
      else none,
    masks := fun k => if k = 5 then some (EPOLLIN ||| EPOLLET) else none }

/-- C4 (counterexample): the invariant holds in `c4_state`, but
`send_message` rearms descriptor 5 with a mask of exactly `EPOLLOUT`
while leaving `want_write` false, so the invariant fails afterwards. -/
theorem send_message_breaks_mask_invariant :
    mask_invariant c4_state ∧ ¬ mask_invariant (send_message 5 [42] c4_state) := by
  constructor
  · intro fd c hc hw m hm
    by_cases hk : fd = 5
    · subst hk
      have hm' : m = EPOLLIN ||| EPOLLET := by simpa [c4_state] using hm.symm
      subst hm'; decide
    · simp [c4_state, hk] at hc
  · intro hinv
    have h5 : (send_message 5 [42] c4_state).masks 5 = some EPOLLOUT := by
      simp [send_message, c4_state, mod_epoll, update_conn]
    have hc5 : (send_message 5 [42] c4_state).conns 5 =
        some { outq := [[42]], want_write := false, want_close := false } := by
      simp [send_message, c4_state, mod_epoll, update_conn]
    have := hinv 5 _ hc5 rfl EPOLLOUT h5
    exact absurd this (by decide)

/-- C4 (amended): the invariant "`want_write` false implies the
registered mask has no `EPOLLOUT` bit" is preserved by accept
registration, by connection teardown, and by the whole per-event
dispatch of the event loop (write scheduling, `EPOLLOUT` flush,
error/hangup and sentinel close checks, read drain) — but not by
`send_message`, which rearms the mask to `EPOLLOUT` alone while
leaving `want_write` false. -/
theorem mask_invariant_preserved_by_loop_ops
    (st : ServerState) (h : mask_invariant st) :
    (∀ fd, mask_invariant (try_accept_one fd st)) ∧
    (∀ fd, mask_invariant (close_conn fd st)) ∧
    (∀ fd ev sends1 sends2 recvs,
      mask_invariant (dispatch_event fd ev sends1 sends2 recvs st)) := by
  refine ⟨fun fd => ?_, fun fd => mask_invariant_close_conn st fd h, ?_⟩
  · unfold try_accept_one
    split
    · exact h
    · intro k c hc hw m hm
      by_cases hk : k = fd
      · subst hk
        have hm' : m = EPOLLIN ||| EPOLLET := by simpa using hm.symm
        subst hm'; decide
      · simp only [if_neg hk] at hc hm
        exact h k c hc hw m hm
  · intro fd ev sends1 sends2 recvs
    unfold dispatch_event
    split
    · exact h
    · have h1 := mask_invariant_pre_flush st fd sends1 h
      have h2 := mask_invariant_epollout _ fd ev sends2 h1
      dsimp only
      split
      · exact mask_invariant_close_check _ fd h2
      · split
        · exact mask_invariant_close_check _ fd h2
        · split
          · exact mask_invariant_try_read _ fd recvs h2
          · exact h2

/-- C4 (witness): the preservation theorem applied at `c4_state`,
discharging its invariant hypothesis there. -/
theorem mask_invariant_preserved_witness :
    mask_invariant (close_conn 7 c4_state) :=
  (mask_invariant_preserved_by_loop_ops c4_state
    (by
      intro fd c hc hw m hm
      by_cases hk : fd = 5
      · subst hk
        have hm' : m = EPOLLIN ||| EPOLLET := by simpa [c4_state] using hm.symm
        subst hm'; decide
      · simp [c4_state, hk] at hc)).2.1 7

/-- C5 (code_bug): for an open accepted connection torn down by the
reactor while holding the last `shared_ptr` reference, the descriptor
is closed twice — `close_conn` calls `close_socket(fd)` directly
without touching the `connection` object's `is_open` flag, and erasing
the table entry then runs `connection::~connection`, whose `close()`
sees `is_open` still true and closes the same descriptor again.
Moreover the first close happens strictly after `on_closed` returns,
not before. -/
theorem descriptor_closed_twice :
    close_count (reactor_teardown_trace ⟨true⟩ true) = 2 ∧
    (reactor_teardown_trace ⟨true⟩ true).indexOf .onClosed <
      (reactor_teardown_trace ⟨true⟩ true).indexOf .closeSocket := by
  decide

/-- C6 (counterexample): the sentinel mask 3545940 does collide with
standard readiness bits: its bitwise AND with `EPOLLOUT` is 4 and with
`EPOLLHUP` is 16, not 0 as claimed. -/
theorem sentinel_collides_with_epollout :
    HAMZA_CUSTOM_CLOSE_EVENT &&& EPOLLOUT = 4 ∧
    HAMZA_CUSTOM_CLOSE_EVENT &&& EPOLLHUP = 16 := by decide

/-- C6 (amended): the sentinel mask 3545940 shares no set bit with
`EPOLLIN`, `EPOLLERR` or `EPOLLRDHUP`, but its bitwise AND with
`EPOLLOUT` is 4 and with `EPOLLHUP` is 16. -/
theorem sentinel_overlap_exact :
    HAMZA_CUSTOM_CLOSE_EVENT &&& EPOLLIN = 0 ∧
    HAMZA_CUSTOM_CLOSE_EVENT &&& EPOLLERR = 0 ∧
    HAMZA_CUSTOM_CLOSE_EVENT &&& EPOLLRDHUP = 0 ∧
    HAMZA_CUSTOM_CLOSE_EVENT &&& EPOLLOUT = 4 ∧
    HAMZA_CUSTOM_CLOSE_EVENT &&& EPOLLHUP = 16 := by decide

/-- C7 (confirmed): `close_conn` performs its teardown steps in the
order multiplexer-removal, `on_closed`, descriptor close, table erase;
in particular `on_closed` comes strictly after `del_epoll` and strictly
before `close_socket`, and each step occurs exactly once. -/
theorem close_conn_step_ordering :
    close_conn_trace.indexOf .delEpoll < close_conn_trace.indexOf .onClosed ∧
    close_conn_trace.indexOf .onClosed < close_conn_trace.indexOf .closeSocket ∧
    close_conn_trace.indexOf .closeSocket < close_conn_trace.indexOf .eraseTable ∧
    close_conn_trace.count .delEpoll = 1 ∧
    close_conn_trace.count .onClosed = 1 ∧
    close_conn_trace.count .closeSocket = 1 ∧
    close_conn_trace.count .eraseTable = 1 := by decide

/-- C8 (code_bug): encoding an IPv4 endpoint and decoding the bytes
back loses the address.  The component constructor overwrites the
`sockaddr_in` with a `sockaddr_in6` whose family field still says
`AF_INET`, so decoding reads the address from offset 4 — the zero
`sin6_flowinfo` field — and recovers `0.0.0.0` instead of `127.0.0.1`
(family and port happen to survive because their offsets coincide).
An IPv6 endpoint round-trips intact. -/
theorem ipv4_encode_decode_loses_address :
    socket_address_decode (socket_address_encode AF_INET [127, 0, 0, 1] 8080) =
      some { family_id := AF_INET, address := [0, 0, 0, 0], port_id := 8080 } ∧
    [0, 0, 0, 0] ≠ [127, 0, 0, 1] ∧
    socket_address_decode
        (socket_address_encode AF_INET6
          [0, 0, 0, 0, 0, 0, 0, 0, 0, 0, 0, 0, 0, 0, 0, 1] 8080) =
      some { family_id := AF_INET6,
             address := [0, 0, 0, 0, 0, 0, 0, 0, 0, 0, 0, 0, 0, 0, 0, 1],
             port_id := 8080 } := by decide

/-- C9 (confirmed): the event batch starts at capacity 4096; an
iteration whose `epoll_wait` count equals the capacity doubles it;
no iteration ever shrinks it (so it never decreases over any run); and
resizing preserves the already-filled prefix, so all records of the
saturated batch are still processed in that same iteration. -/
theorem event_batch_capacity_properties :
    initial_event_capacity = 4096 ∧
    (∀ cap, resize_step cap cap = cap * 2) ∧
    (∀ cap n, cap ≤ resize_step cap n) ∧
    (∀ ns n, capacity_after ns ≤ capacity_after (ns ++ [n])) ∧
    (∀ (l : List Nat) (pad : Nat), (resize_grow l pad).take l.length = l) := by
  have hmono : ∀ cap n, cap ≤ resize_step cap n := by
    intro cap n; unfold resize_step; split <;> omega
  refine ⟨rfl, fun cap => by simp [resize_step], hmono, fun ns n => ?_, fun l pad => ?_⟩
  · rw [capacity_after, capacity_after, List.foldl_append]
    exact hmono _ n
  · exact List.take_left l _

/-- C10 (confirmed): `send_message` on a descriptor absent from the
connection table returns without touching anything — the resulting
state (connection table, output queues, flags, multiplexer
registrations) is exactly the input state. -/
theorem send_message_unknown_fd_noop
    (st : ServerState) (fd : Nat) (msg : List Nat)
    (h : st.conns fd = none) :
    send_message fd msg st = st := by
  simp [send_message, h]

/-- A reactor state with nothing registered. -/
def empty_state : ServerState :=
  { conns := fun _ => none, masks := fun _ => none }

/-- C10 (witness): `send_message` to descriptor 3 of the empty state is
the empty state. -/
theorem send_message_unknown_fd_noop_witness :
    send_message 3 [1, 2] empty_state = empty_state :=
  send_message_unknown_fd_noop empty_state 3 [1, 2] rfl
